import Mathlib

/-!
Verification of the YaMDb review-aggregation backend domain logic.

The definitions below are a shallow embedding of the Python source under
`api_yamdb/` (Django REST framework application).  Pure framework behaviour
that the source relies on (HTTP safe methods, `round`, `get_object_or_404`,
model-serializer uniqueness validation) is embedded with its documented
Django/DRF semantics; each such definition carries a comment saying which
framework behaviour it embeds.
-/

namespace YaMDb

/-! ## Roles and actors (reviews/models.py, rest_framework.request) -/

/-- The closed role enumeration `USER_ROLE_CHOICES` of `reviews/models.py`:
`'user'`, `'moderator'`, `'admin'`. -/
inductive Role where
  | user
  | moderator
  | admin
deriving DecidableEq, Repr

/-- The requesting actor as DRF presents it to a permission class:
`request.user` is either `AnonymousUser` (`is_authenticated = False`) or a
`CustomUser` row with an id, a `role` and an `is_superuser` flag. -/
structure Actor where
  is_authenticated : Bool
  id : Nat
  role : Role
  is_superuser : Bool
deriving DecidableEq, Repr

/-- An anonymous request: `AnonymousUser` has `is_authenticated = False`,
`is_superuser = False`; its id and role are irrelevant (never consulted on a
path the permission classes reach for an anonymous actor). -/
def anonymous : Actor := ⟨false, 0, Role.user, false⟩

/-- HTTP methods a DRF view can receive. -/
inductive Method where
  | get
  | head
  | options
  | post
  | put
  | patch
  | delete
deriving DecidableEq, Repr

/-- `rest_framework.permissions.SAFE_METHODS = ('GET', 'HEAD', 'OPTIONS')`. -/
def safeMethod : Method → Bool
  | Method.get => true
  | Method.head => true
  | Method.options => true
  | _ => false

/-! ## Permission classes (api/permissions.py) -/

/-- `IsAdmin.has_permission`:
`request.user.is_authenticated and (request.user.role == USER_ROLE_ADMIN or
request.user.is_superuser)`. -/
def IsAdmin_has_permission (u : Actor) : Bool :=
  u.is_authenticated && (u.role == Role.admin || u.is_superuser)

/-- `IsAdminOrReadOnly.has_permission`:
`request.method in SAFE_METHODS or (request.user.is_authenticated and
(request.user.is_superuser or request.user.role == USER_ROLE_ADMIN))`. -/
def IsAdminOrReadOnly_has_permission (u : Actor) (m : Method) : Bool :=
  safeMethod m || (u.is_authenticated && (u.is_superuser || u.role == Role.admin))

/-- `IsOwnerAdminModeratorOrReadOnly.has_permission`:
`request.method in SAFE_METHODS or request.user.is_authenticated`. -/
def IsOwnerAdminModeratorOrReadOnly_has_permission (u : Actor) (m : Method) : Bool :=
  safeMethod m || u.is_authenticated

/-- `IsOwnerAdminModeratorOrReadOnly.has_object_permission`:
`request.method in SAFE_METHODS or obj.author == request.user or
request.user.role in (USER_ROLE_MODERATOR, USER_ROLE_ADMIN)`.
`obj.author` is a `CustomUser` row identified here by its id; an
`AnonymousUser` never equals a stored `CustomUser`, hence the
`u.is_authenticated` guard on the author comparison. -/
def IsOwnerAdminModeratorOrReadOnly_has_object_permission
    (u : Actor) (m : Method) (objAuthor : Nat) : Bool :=
  safeMethod m || (u.is_authenticated && u.id == objAuthor)
    || (u.role == Role.moderator || u.role == Role.admin)

/-- DRF grants an object-level action (update/delete of an existing Review or
Comment) only when both `has_permission` and `has_object_permission` accept. -/
def reviewObjectActionAllowed (u : Actor) (m : Method) (objAuthor : Nat) : Bool :=
  IsOwnerAdminModeratorOrReadOnly_has_permission u m
    && IsOwnerAdminModeratorOrReadOnly_has_object_permission u m objAuthor

/-! ## GenreViewSet.retrieve (api/views.py) -/

/-- A bare HTTP response identified by its status code. -/
structure HttpResponse where
  status : Nat
deriving DecidableEq, Repr

/-- `GenreViewSet.retrieve`: `return Response(status=status.HTTP_405_METHOD_NOT_ALLOWED)`
unconditionally, for any requesting actor. -/
def GenreViewSet_retrieve (_u : Actor) : HttpResponse :=
  ⟨405⟩

/-! ## Rating aggregator (api/serializers.py, TitleReadSerializer.get_rating) -/

/-- Python 3's built-in `round` on the exact value of its argument: round to
the nearest integer, ties going to the even integer (banker's rounding).
`get_rating` applies `round` to `sum(total_scores) / len(total_scores)`, an
IEEE-754 division of small integers; for the magnitudes involved the float
result is exactly the rational quotient whenever the quotient is a tie
(a half-integer is exactly representable and IEEE division is correctly
rounded), and otherwise lies on the same side of every half-integer as the
exact quotient, so rounding the exact rational is faithful. -/
def pyRound (q : ℚ) : ℤ :=
  if q - ⌊q⌋ < 1 / 2 then ⌊q⌋
  else if q - ⌊q⌋ > 1 / 2 then ⌊q⌋ + 1
  else if ⌊q⌋ % 2 = 0 then ⌊q⌋ else ⌊q⌋ + 1

/-- `TitleReadSerializer.get_rating`: collects the scores of the title's
reviews into `total_scores`; returns `None` when the list is empty, and
`round(sum(total_scores) / len(total_scores))` otherwise.  The title's review
scores are passed here as the list they are collected into. -/
def get_rating (total_scores : List ℤ) : Option ℤ :=
  if total_scores.isEmpty then none
  else some (pyRound ((total_scores.sum : ℚ) / (total_scores.length : ℚ)))

/-! ## Reviews: uniqueness and score validation
(api/serializers.py ReviewSerializer, reviews/models.py Review) -/

/-- A stored `Review` row, with the fields the uniqueness and validation
logic consults (`author` and `title` are the rows' foreign-key ids). -/
structure ReviewRow where
  author : Nat
  title : Nat
  score : ℤ
  text : String
deriving DecidableEq, Repr

/-- `Review.objects.filter(author=..., title=...).exists()` over the stored
review rows. -/
def reviewExists (store : List ReviewRow) (author title : Nat) : Bool :=
  store.any (fun r => r.author == author && r.title == title)

/-- `ReviewSerializer.validate_score`: `if not 1 <= value <= 10:` raise a
validation error, else return the value. -/
def validate_score (value : ℤ) : Except String ℤ :=
  if ¬(1 ≤ value ∧ value ≤ 10) then
    Except.error "Оценка может быть от 1 до 10!"
  else Except.ok value

/-- `ReviewSerializer.validate_title`: rejects when the requesting user
already has a review for this title
(`Review.objects.filter(author=username, title=value).exists()`). -/
def validate_title (store : List ReviewRow) (requestUser : Nat) (value : Nat) :
    Except String Nat :=
  if reviewExists store requestUser value then
    Except.error "Нельзя добавить второй отзыв на то же самое произведение!"
  else Except.ok value

/-- `UniqueTogetherValidator(queryset=Review.objects.all(),
fields=('author', 'title'))` declared on `ReviewSerializer.Meta`: rejects the
payload when a stored review already has the same (author, title) pair. -/
def uniqueTogetherValidator (store : List ReviewRow) (author title : Nat) :
    Except String Unit :=
  if reviewExists store author title then
    Except.error "The fields author, title must make a unique set."
  else Except.ok ()

/-- The store-level INSERT under
`UniqueConstraint(fields=('title', 'author'), name='unique_title')` of
`Review.Meta.constraints`: the database rejects a row whose (title, author)
pair is already present, and appends it otherwise. -/
def reviewInsert (store : List ReviewRow) (r : ReviewRow) :
    Except String (List ReviewRow) :=
  if reviewExists store r.author r.title then
    Except.error "unique_title"
  else Except.ok (store ++ [r])

/-! ## Registration and credential exchange
(api/views.py EmailRegistrationView, AccessTokenView; api/serializers.py
EmailSerializer; reviews/models.py CustomUser) -/

/-- A stored `CustomUser` row, with the fields the registration and token
logic consults. -/
structure UserRow where
  username : String
  email : String
  confirmation_code : String
deriving DecidableEq, Repr

/-- `UnicodeUsernameValidator` on `CustomUser.username`, the regex
`^[\w.@+-]+\Z`: one or more word characters or `.`, `@`, `+`, `-`.  Word
characters are restricted here to ASCII letters, digits and underscore. -/
def usernameCharsOk (u : String) : Bool :=
  !u.toList.isEmpty && u.toList.all (fun c =>
    c.isAlphanum || c == '_' || c == '@' || c == '.' || c == '+' || c == '-')

/-- `EmailSerializer.is_valid()`: DRF runs, per declared field, the
model-derived validators — for `username` the `UniqueValidator` (the model
field is `unique=True`), the `UnicodeUsernameValidator` and the field-level
`validate_username` (which rejects the reserved word `'me'`); for `email` the
`UniqueValidator` and Django's email-format validator, abstracted here to
requiring an `'@'`.  Validation succeeds iff no validator rejects. -/
def emailSerializer_is_valid (store : List UserRow) (username email : String) : Bool :=
  usernameCharsOk username
    && username != "me"
    && !(store.any (fun u => u.username == username))
    && email.toList.contains '@'
    && !(store.any (fun u => u.email == email))

/-- Outcome of `EmailRegistrationView.post`: on success, the updated user
store together with the confirmation code interpolated into the sent mail
(`Your confirmation: {user.confirmation_code}`); otherwise the 400 response
raised by `is_valid(raise_exception=True)`. -/
inductive RegistrationResult where
  | ok (store : List UserRow) (sentCode : String)
  | badRequest
deriving DecidableEq, Repr

/-- `EmailRegistrationView.post`: validates the payload with
`EmailSerializer`; on success `serializer.save()` creates the `CustomUser`
row — `confirmation_code` takes the model field's default, the empty string
(`blank=True`, no default value, and nothing on this path assigns it; in
particular `generate_and_send_confirmation_code_to_email` of `api/utils.py`
is never called by the view) — then `mail_send(email, user)` emails
`user.confirmation_code`. -/
def emailRegistrationPost (store : List UserRow) (username email : String) :
    RegistrationResult :=
  if emailSerializer_is_valid store username email then
    RegistrationResult.ok (store ++ [⟨username, email, ""⟩]) ""
  else RegistrationResult.badRequest

/-- Exceptions distinguished by `AccessTokenView.post`: `Http404` raised by
`get_object_or_404`, and `CustomUser.DoesNotExist` which the view's `except`
clause catches. -/
inductive DjangoExc where
  | http404
  | doesNotExist
deriving DecidableEq, Repr

/-- `django.shortcuts.get_object_or_404(CustomUser, username=username)`:
calls `CustomUser.objects.get`, catches the model's `DoesNotExist` internally
and raises `Http404` in its place — a missing row therefore surfaces as
`Http404`, never as `CustomUser.DoesNotExist`. -/
def get_object_or_404 (store : List UserRow) (username : String) :
    Except DjangoExc UserRow :=
  match store.find? (fun u => u.username == username) with
  | some u => Except.ok u
  | none => Except.error DjangoExc.http404

/-- Outcomes of `AccessTokenView.post`: a token response, the 400
`{'email': 'Not found'}` body of the `except CustomUser.DoesNotExist`
branch, the 400 invalid-code response, or a propagated `Http404`. -/
inductive TokenResult where
  | token (username : String)
  | badRequestNotFound
  | badRequestInvalidCode (email : String)
  | notFound404
deriving DecidableEq, Repr

/-- `AccessTokenView.post` after `ConfirmationCodeSerializer` validation:
`try: user = get_object_or_404(...) except CustomUser.DoesNotExist:` return
the 400 `'Not found'` body; an `Http404` is not caught and propagates; then
the stored confirmation code is compared with the submitted one. -/
def accessTokenPost (store : List UserRow) (username confirmation_code : String) :
    TokenResult :=
  match get_object_or_404 store username with
  | Except.error DjangoExc.doesNotExist => TokenResult.badRequestNotFound
  | Except.error DjangoExc.http404 => TokenResult.notFound404
  | Except.ok user =>
      if user.confirmation_code != confirmation_code then
        TokenResult.badRequestInvalidCode user.email
      else TokenResult.token user.username

/-! ## Self-profile update (api/views.py UserViewSet.me) -/

/-- The profile fields `UserSerializer` exposes
(`email`, `username`, `bio`, `role`, `first_name`, `last_name`). -/
structure UserProfile where
  username : String
  email : String
  bio : String
  role : Role
  first_name : String
  last_name : String
deriving DecidableEq, Repr

/-- A partial-update payload: `none` for a field not submitted. -/
structure ProfilePatch where
  username : Option String
  email : Option String
  bio : Option String
  role : Option Role
  first_name : Option String
  last_name : Option String
deriving DecidableEq, Repr

/-- `UserViewSet.me` on PATCH: the partial serializer's `validated_data`
holds exactly the submitted fields, and `serializer.save(role=request.user.role)`
merges the keyword argument over `validated_data`, so every submitted field
is written except that the requesting user's stored role is re-applied. -/
def me_patch (current : UserProfile) (payload : ProfilePatch) : UserProfile :=
  ⟨payload.username.getD current.username,
    payload.email.getD current.email,
    payload.bio.getD current.bio,
    current.role,
    payload.first_name.getD current.first_name,
    payload.last_name.getD current.last_name⟩

end YaMDb

/-! # Theorems -/

namespace YaMDb

/-- C4: on Category/Genre/Title, for every actor and every write method,
`IsAdminOrReadOnly` allows iff the actor is authenticated and is a superuser
or has role admin; concretely an anonymous POST (create Category) is denied
and an admin POST is allowed. -/
theorem isAdminOrReadOnly_write_iff_admin
    (u : Actor) (m : Method) (hw : safeMethod m = false) :
    (IsAdminOrReadOnly_has_permission u m = true
      ↔ u.is_authenticated = true ∧ (u.is_superuser = true ∨ u.role = Role.admin))
    ∧ IsAdminOrReadOnly_has_permission anonymous Method.post = false
    ∧ IsAdminOrReadOnly_has_permission ⟨true, 1, Role.admin, false⟩ Method.post = true := by
  refine ⟨?_, by decide, by decide⟩
  simp [IsAdminOrReadOnly_has_permission, hw]

/-- Witness for `isAdminOrReadOnly_write_iff_admin` at the DELETE method and a
moderator actor, whose write access is thereby denied. -/
theorem isAdminOrReadOnly_write_iff_admin_witness :
    (IsAdminOrReadOnly_has_permission ⟨true, 2, Role.moderator, false⟩ Method.delete = true
      ↔ (true : Bool) = true ∧ ((false : Bool) = true ∨ Role.moderator = Role.admin))
    ∧ IsAdminOrReadOnly_has_permission anonymous Method.post = false
    ∧ IsAdminOrReadOnly_has_permission ⟨true, 1, Role.admin, false⟩ Method.post = true :=
  isAdminOrReadOnly_write_iff_admin ⟨true, 2, Role.moderator, false⟩ Method.delete (by decide)

/-- C3 counterexample: retrieving a single Genre is answered with
405 Method Not Allowed for every actor — here concretely for an anonymous
actor and for an admin superuser whose GET the permission class does allow —
so the read-only action "retrieve Genre" is not allowed by the system. -/
theorem genre_retrieve_never_served :
    GenreViewSet_retrieve anonymous = ⟨405⟩
    ∧ GenreViewSet_retrieve ⟨true, 9, Role.admin, true⟩ = ⟨405⟩
    ∧ IsAdminOrReadOnly_has_permission ⟨true, 9, Role.admin, true⟩ Method.get = true
    ∧ (⟨405⟩ : HttpResponse) ≠ ⟨200⟩ := by
  exact ⟨rfl, rfl, by decide, by decide⟩

/-- C3 (amended): for every actor, including anonymous ones, every permission
class guarding Category, Genre, Title, Review and Comment accepts every
read-only (safe-method) request — but `GenreViewSet.retrieve` itself responds
405 Method Not Allowed to every actor, so single-Genre retrieval is never
served. -/
theorem read_only_always_allowed_by_permissions
    (u : Actor) (m : Method) (hs : safeMethod m = true) :
    IsAdminOrReadOnly_has_permission u m = true
    ∧ IsOwnerAdminModeratorOrReadOnly_has_permission u m = true
    ∧ (∀ a : Nat, IsOwnerAdminModeratorOrReadOnly_has_object_permission u m a = true)
    ∧ (∀ v : Actor, GenreViewSet_retrieve v = ⟨405⟩) := by
  refine ⟨?_, ?_, fun a => ?_, fun v => rfl⟩
  · simp [IsAdminOrReadOnly_has_permission, hs]
  · simp [IsOwnerAdminModeratorOrReadOnly_has_permission, hs]
  · simp [IsOwnerAdminModeratorOrReadOnly_has_object_permission, hs]

/-- Witness for `read_only_always_allowed_by_permissions` at an anonymous GET. -/
theorem read_only_always_allowed_by_permissions_witness :
    IsAdminOrReadOnly_has_permission anonymous Method.get = true
    ∧ IsOwnerAdminModeratorOrReadOnly_has_permission anonymous Method.get = true
    ∧ (∀ a : Nat, IsOwnerAdminModeratorOrReadOnly_has_object_permission anonymous Method.get a = true)
    ∧ (∀ v : Actor, GenreViewSet_retrieve v = ⟨405⟩) :=
  read_only_always_allowed_by_permissions anonymous Method.get (by decide)

/-- C5: for every authenticated actor and every write (non-safe) method on an
existing Review, the combined permission check accepts iff the actor is the
Review's author or has role moderator or admin; concretely a non-author with
role user is denied, the author is allowed, and a moderator is allowed on any
Review. -/
theorem review_write_iff_author_or_staff
    (u : Actor) (ha : u.is_authenticated = true) (m : Method)
    (hw : safeMethod m = false) (a : Nat) :
    (reviewObjectActionAllowed u m a = true
      ↔ u.id = a ∨ u.role = Role.moderator ∨ u.role = Role.admin)
    ∧ reviewObjectActionAllowed ⟨true, 5, Role.user, false⟩ Method.delete 7 = false
    ∧ reviewObjectActionAllowed ⟨true, 7, Role.user, false⟩ Method.delete 7 = true
    ∧ (∀ b : Nat, reviewObjectActionAllowed ⟨true, 5, Role.moderator, false⟩ Method.delete b = true) := by
  refine ⟨?_, by decide, by decide, fun b => ?_⟩
  · simp [reviewObjectActionAllowed, IsOwnerAdminModeratorOrReadOnly_has_permission,
      IsOwnerAdminModeratorOrReadOnly_has_object_permission, ha, hw]
  · simp [reviewObjectActionAllowed, IsOwnerAdminModeratorOrReadOnly_has_permission,
      IsOwnerAdminModeratorOrReadOnly_has_object_permission]

/-- Witness for `review_write_iff_author_or_staff`: an authenticated admin
deleting review 3 written by author 8. -/
theorem review_write_iff_author_or_staff_witness :
    (reviewObjectActionAllowed ⟨true, 4, Role.admin, false⟩ Method.delete 8 = true
      ↔ (4 : Nat) = 8 ∨ Role.admin = Role.moderator ∨ Role.admin = Role.admin)
    ∧ reviewObjectActionAllowed ⟨true, 5, Role.user, false⟩ Method.delete 7 = false
    ∧ reviewObjectActionAllowed ⟨true, 7, Role.user, false⟩ Method.delete 7 = true
    ∧ (∀ b : Nat, reviewObjectActionAllowed ⟨true, 5, Role.moderator, false⟩ Method.delete b = true) :=
  review_write_iff_author_or_staff ⟨true, 4, Role.admin, false⟩ rfl Method.delete (by decide) 8

/-- `pyRound` returns an integer within distance 1/2 of its argument: it is a
round-to-nearest. -/
theorem pyRound_dist (q : ℚ) : |q - (pyRound q : ℚ)| ≤ 1 / 2 := by
  have h0 : ((⌊q⌋ : ℤ) : ℚ) ≤ q := Int.floor_le q
  have h1 : q < ⌊q⌋ + 1 := Int.lt_floor_add_one q
  unfold pyRound
  split_ifs with c1 c2 c3
  · rw [abs_of_nonneg (by linarith)]
    linarith
  · push_cast
    rw [abs_of_nonpos (by linarith)]
    linarith
  · rw [abs_of_nonneg (by linarith)]
    linarith
  · push_cast
    rw [abs_of_nonpos (by linarith)]
    linarith

/-- C1: `get_rating` returns `None` exactly on an empty review list; on a
nonempty list it returns an integer within 1/2 of the mean score, i.e. a
round-to-nearest of the mean.  Scores `[3, 5, 10]` give rating 6; the
tie-break is Python's round-half-to-even, so the tied mean 6.5 of scores
`[6, 7]` gives 6 (round-half-up would give 7). -/
theorem get_rating_spec (s : List ℤ) (hs : s ≠ []) :
    get_rating [] = none
    ∧ (∃ r : ℤ, get_rating s = some r
        ∧ |(s.sum : ℚ) / (s.length : ℚ) - (r : ℚ)| ≤ 1 / 2)
    ∧ get_rating [3, 5, 10] = some 6
    ∧ get_rating [6, 7] = some 6 := by
  refine ⟨rfl, ?_, by norm_num [get_rating, pyRound], by norm_num [get_rating, pyRound]⟩
  have he : s.isEmpty = false := by
    simpa [List.isEmpty_iff] using hs
  exact ⟨pyRound ((s.sum : ℚ) / (s.length : ℚ)), by simp [get_rating, he], pyRound_dist _⟩

/-- Witness for `get_rating_spec` at the score list `[2, 2, 5]`, whose mean 3
rounds to itself. -/
theorem get_rating_spec_witness :
    get_rating [] = none
    ∧ (∃ r : ℤ, get_rating [2, 2, 5] = some r
        ∧ |((([2, 2, 5] : List ℤ).sum : ℚ) / (([2, 2, 5] : List ℤ).length : ℚ)) - (r : ℚ)| ≤ 1 / 2)
    ∧ get_rating [3, 5, 10] = some 6
    ∧ get_rating [6, 7] = some 6 :=
  get_rating_spec [2, 2, 5] (by decide)

/-- C2: when the store already holds a review by author `a` on title `t`, a
second creation attempt by `a` on `t` — whatever its score and text — is
rejected independently by the serializer pre-checks (`validate_title` and the
`UniqueTogetherValidator`) and by the store-level `unique_title` constraint. -/
theorem second_review_rejected
    (store : List ReviewRow) (a t : Nat) (s₁ : ℤ) (x₁ : String)
    (hmem : (⟨a, t, s₁, x₁⟩ : ReviewRow) ∈ store) (s₂ : ℤ) (x₂ : String) :
    validate_title store a t
        = Except.error "Нельзя добавить второй отзыв на то же самое произведение!"
    ∧ uniqueTogetherValidator store a t
        = Except.error "The fields author, title must make a unique set."
    ∧ reviewInsert store ⟨a, t, s₂, x₂⟩ = Except.error "unique_title" := by
  have hex : reviewExists store a t = true := by
    simp only [reviewExists, List.any_eq_true]
    exact ⟨⟨a, t, s₁, x₁⟩, hmem, by simp⟩
  exact ⟨by simp [validate_title, hex], by simp [uniqueTogetherValidator, hex],
    by simp [reviewInsert, hex]⟩

/-- Witness for `second_review_rejected`: author 1 already reviewed title 2
with score 5; a second attempt with score 9 and different text is rejected by
all three checks. -/
theorem second_review_rejected_witness :
    validate_title [⟨1, 2, 5, "good"⟩] 1 2
        = Except.error "Нельзя добавить второй отзыв на то же самое произведение!"
    ∧ uniqueTogetherValidator [⟨1, 2, 5, "good"⟩] 1 2
        = Except.error "The fields author, title must make a unique set."
    ∧ reviewInsert [⟨1, 2, 5, "good"⟩] ⟨1, 2, 9, "bad"⟩ = Except.error "unique_title" :=
  second_review_rejected [⟨1, 2, 5, "good"⟩] 1 2 5 "good" (List.mem_singleton.mpr rfl) 9 "bad"

/-- C9: `validate_score` accepts an integer score exactly when it lies in
[1, 10]; the boundary values 1 and 10 are accepted and the out-of-range
values 0 and 11 are rejected with the validation error. -/
theorem score_range_validated :
    (∀ v : ℤ, validate_score v = Except.ok v ↔ 1 ≤ v ∧ v ≤ 10)
    ∧ validate_score 1 = Except.ok 1
    ∧ validate_score 10 = Except.ok 10
    ∧ validate_score 0 = Except.error "Оценка может быть от 1 до 10!"
    ∧ validate_score 11 = Except.error "Оценка может быть от 1 до 10!" := by
  refine ⟨fun v => ?_, rfl, rfl, rfl, rfl⟩
  unfold validate_score
  split_ifs with h
  · exact iff_of_true rfl h
  · simp [h]

/-- C6 counterexample: the store already holds the user `alice`;
re-registering the same username (same email, too) is answered with the 400
validation response — the unique-username validator rejects it — so the
re-registration does not succeed, and no code is regenerated or redelivered. -/
theorem reregistration_returns_badRequest :
    emailRegistrationPost [⟨"alice", "alice@example.org", ""⟩] "alice" "alice@example.org"
      = RegistrationResult.badRequest := by
  decide

/-- C6 (amended): re-registering any username already present in the store is
rejected with the 400 validation (conflict) response, whatever email is
submitted; the store is not touched and nothing is delivered. -/
theorem reregistration_rejected
    (store : List UserRow) (username email : String)
    (h : ∃ row ∈ store, row.username = username) :
    emailRegistrationPost store username email = RegistrationResult.badRequest := by
  obtain ⟨row, hrow, hu⟩ := h
  have hany : store.any (fun u => u.username == username) = true :=
    List.any_eq_true.mpr ⟨row, hrow, by simp [hu]⟩
  simp [emailRegistrationPost, emailSerializer_is_valid, hany]

/-- Witness for `reregistration_rejected`: `bob` is registered; re-submitting
the username `bob` with a fresh email is rejected. -/
theorem reregistration_rejected_witness :
    emailRegistrationPost [⟨"bob", "bob@example.org", ""⟩] "bob" "new@example.org"
      = RegistrationResult.badRequest :=
  reregistration_rejected _ _ _ ⟨⟨"bob", "bob@example.org", ""⟩, by simp, rfl⟩

/-- C7: registering the fresh username `alice` with a fresh email succeeds
and creates the user row, but the row's `confirmation_code` is the empty
string and the empty string is what the mail delivers: the view never calls
the code generator, so no non-empty confirmation code is generated, stored or
delivered. -/
theorem registration_delivers_empty_code :
    emailRegistrationPost [] "alice" "alice@example.org"
      = RegistrationResult.ok [⟨"alice", "alice@example.org", ""⟩] "" := by
  decide

/-- C10: `AccessTokenView.post` never returns the 400 `'Not found'` body of
its `except CustomUser.DoesNotExist` branch — `get_object_or_404` signals a
missing user with `Http404`, which that branch does not catch — and a request
with a username absent from the store yields the propagated 404 instead. -/
theorem token_notfound_branch_unreachable
    (store : List UserRow) (username code : String) :
    accessTokenPost store username code ≠ TokenResult.badRequestNotFound
    ∧ (store.find? (fun u => u.username == username) = none
        → accessTokenPost store username code = TokenResult.notFound404) := by
  constructor
  · unfold accessTokenPost get_object_or_404
    cases hf : store.find? (fun u => u.username == username) with
    | none => simp
    | some u => by_cases hc : u.confirmation_code = code <;> simp [hc]
  · intro hf
    unfold accessTokenPost get_object_or_404
    rw [hf]

/-- Witness for `token_notfound_branch_unreachable` on the empty store and
username `bob`: the response is the 404, not the 400 `'Not found'` body. -/
theorem token_notfound_branch_unreachable_witness :
    accessTokenPost [] "bob" "xyz" ≠ TokenResult.badRequestNotFound
    ∧ accessTokenPost [] "bob" "xyz" = TokenResult.notFound404 :=
  ⟨(token_notfound_branch_unreachable [] "bob" "xyz").1,
    (token_notfound_branch_unreachable [] "bob" "xyz").2 rfl⟩

/-- C8: a PATCH of the own profile always produces an updated profile (never
an error): the stored role is left equal to its pre-update value whatever the
payload's role field says, while every other submitted field takes the
submitted value. -/
theorem me_patch_discards_role_change
    (current : UserProfile) (payload : ProfilePatch) :
    (me_patch current payload).role = current.role
    ∧ (∀ u, payload.username = some u → (me_patch current payload).username = u)
    ∧ (∀ e, payload.email = some e → (me_patch current payload).email = e)
    ∧ (∀ b, payload.bio = some b → (me_patch current payload).bio = b)
    ∧ (∀ f, payload.first_name = some f → (me_patch current payload).first_name = f)
    ∧ (∀ l, payload.last_name = some l → (me_patch current payload).last_name = l) := by
  refine ⟨rfl, fun u hu => ?_, fun e he => ?_, fun b hb => ?_, fun f hf => ?_,
    fun l hl => ?_⟩
  all_goals simp [me_patch, *]

/-- Witness for `me_patch_discards_role_change`: a payload submitting a new
bio together with role admin leaves the stored role `user` and persists the
bio. -/
theorem me_patch_discards_role_change_witness :
    (me_patch ⟨"alice", "a@x.y", "old bio", Role.user, "", ""⟩
        ⟨none, none, some "new bio", some Role.admin, none, none⟩).role = Role.user
    ∧ (me_patch ⟨"alice", "a@x.y", "old bio", Role.user, "", ""⟩
        ⟨none, none, some "new bio", some Role.admin, none, none⟩).bio = "new bio" :=
  ⟨(me_patch_discards_role_change _ _).1,
    (me_patch_discards_role_change _ _).2.2.2.1 "new bio" rfl⟩

end YaMDb
